import Mathlib

/-!
Verification of the core of the `daytona_demo` repository: the aggregate
state store (`src/models/demo_state.py`, `src/models/sandbox_result.py`),
the per-unit sandbox worker (`src/sandbox/runner.py`) and the dashboard
projection (`src/dashboard/builder.py`), embedded shallowly in Lean.

Modelling conventions:
* Python floats are modelled as rationals (`ℚ`); `round(x, 1)` is modelled
  by `round1`, rounding half to even as Python's `round` does.
* The Python dict `DemoState.results` (insertion ordered, unique keys) is
  modelled as an association list `List (Nat × SandboxResult)`; `setEntry`
  mirrors `d[k] = v` (replace in place, else append) and `lookupEntry`
  mirrors `d.get(k)`.
* Wall-clock derived values (`start_time`, `elapsed`) are outside the
  model: they are read from the clock, not from the shared mapping.
-/

/-- Embeds `SandboxResult` from `src/models/sandbox_result.py`, with the
same field names and the same defaults (`lr` defaults to `0.01`). -/
structure SandboxResult where
  sandbox_id : String
  index : Nat
  status : String := "pending"
  episode : ℚ := 0
  avg_100 : ℚ := 0
  best : ℚ := 0
  solved : Bool := false
  solved_at : Option ℚ := none
  elapsed_s : ℚ := 0
  lr : ℚ := 1 / 100
  error : String := ""
deriving Repr, DecidableEq

/-- The typed view of the JSON progress-report dict consumed by
`DemoState.update` (`data.get(...)` calls in `src/models/demo_state.py`),
with the recognized fields of the remote task output protocol.  `none`
models an absent (or `null`) key, exactly what `dict.get` conflates. -/
structure Report where
  status : Option String := none
  episode : Option ℚ := none
  avg_100 : Option ℚ := none
  final_avg : Option ℚ := none
  best : Option ℚ := none
  solved : Option Bool := none
  solved_at : Option ℚ := none
  elapsed_s : Option ℚ := none
  lr : Option ℚ := none
deriving Repr, DecidableEq, Inhabited

/-- Models `dict.get(k)` on the results mapping: first entry with the key (keys
are unique in states built by the store operations). -/
def lookupEntry : List (Nat × SandboxResult) → Nat → Option SandboxResult
  | [], _ => none
  | p :: rest, i => if p.1 = i then some p.2 else lookupEntry rest i

/-- Models `d[k] = v` on the results mapping: replace the entry in place if the
key exists (Python dicts keep the original position), else append. -/
def setEntry : List (Nat × SandboxResult) → Nat → SandboxResult → List (Nat × SandboxResult)
  | [], i, r => [(i, r)]
  | p :: rest, i, r => if p.1 = i then (i, r) :: rest else p :: setEntry rest i r

/-- Embeds `DemoState` from `src/models/demo_state.py`: the expected unit
count and the index-keyed results mapping.  The `Lock` only serializes the
mutations below; each mutation is modelled as one atomic state-to-state
function.  `start_time` is clock state, outside the model. -/
structure DemoState where
  total : Nat
  results : List (Nat × SandboxResult)
deriving Repr, DecidableEq

/-- Embeds `DemoState.__init__(total)`: empty mapping. -/
def DemoState.init (total : Nat) : DemoState :=
  { total := total, results := [] }

/-- Models `self.results.get(index)`. -/
def DemoState.find (s : DemoState) (i : Nat) : Option SandboxResult :=
  lookupEntry s.results i

/-- Python rounds half to even (`round(2.5) == 2`). -/
def roundHalfEven (q : ℚ) : ℤ :=
  let f := ⌊q⌋
  let frac := q - (f : ℚ)
  if frac < 1 / 2 then f
  else if 1 / 2 < frac then f + 1
  else if f % 2 = 0 then f else f + 1

/-- Models `round(q, 1)`. -/
def round1 (q : ℚ) : ℚ :=
  (roundHalfEven (q * 10) : ℚ) / 10

/-- Embeds `DemoState.update` (src/models/demo_state.py lines 14-32):
create the record if absent, always overwrite `sandbox_id`, then branch on
`data.get("status") == "complete"`: the terminal branch copies the terminal
fields, the other branch unconditionally sets `status = "running"` and the
progress fields. -/
def DemoState.update (s : DemoState) (index : Nat) (sandbox_id : String) (data : Report) :
    DemoState :=
  let r0 := (s.find index).getD { sandbox_id := sandbox_id, index := index }
  let r1 := { r0 with sandbox_id := sandbox_id }
  let r2 :=
    if data.status = some "complete" then
      { r1 with
          status := "complete"
          avg_100 := data.final_avg.getD 0
          best := data.best.getD 0
          solved := data.solved.getD false
          solved_at := data.solved_at
          elapsed_s := data.elapsed_s.getD 0
          lr := data.lr.getD (1 / 100) }
    else
      { r1 with
          status := "running"
          episode := data.episode.getD 0
          avg_100 := data.avg_100.getD 0
          solved := data.solved.getD false }
  { s with results := setEntry s.results index r2 }

/-- Embeds `DemoState.mark_error` (lines 34-39): create the record if
absent (with the given `sandbox_id`), then set only `status` and `error`.
An existing record keeps its `sandbox_id` and every other field. -/
def DemoState.mark_error (s : DemoState) (index : Nat) (sandbox_id msg : String) : DemoState :=
  let r0 := (s.find index).getD { sandbox_id := sandbox_id, index := index }
  { s with results := setEntry s.results index { r0 with status := "error", error := msg } }

/-- Embeds `DemoState.mark_running` (lines 41-45): create the record if
absent (with the given `sandbox_id`), then set only `status := "running"`.
Note the source does not write `sandbox_id` on an existing record. -/
def DemoState.mark_running (s : DemoState) (index : Nat) (sandbox_id : String) : DemoState :=
  let r0 := (s.find index).getD { sandbox_id := sandbox_id, index := index }
  { s with results := setEntry s.results index { r0 with status := "running" } }

/-- Embeds `DemoState.n_complete`: `sum(1 for r in self.results.values() if r.status == "complete")`. -/
def DemoState.n_complete (s : DemoState) : Nat :=
  s.results.countP (fun p => p.2.status == "complete")

/-- Embeds `DemoState.n_running`. -/
def DemoState.n_running (s : DemoState) : Nat :=
  s.results.countP (fun p => p.2.status == "running")

/-- Embeds `DemoState.n_error`. -/
def DemoState.n_error (s : DemoState) : Nat :=
  s.results.countP (fun p => p.2.status == "error")

/-- Embeds `DemoState.n_solved`. -/
def DemoState.n_solved (s : DemoState) : Nat :=
  s.results.countP (fun p => p.2.solved)

/-- Embeds `DemoState.avg_final` (lines 64-67): the `avg_100` values of the
complete records; `round(sum(vals)/len(vals), 1) if vals else 0.0`. -/
def DemoState.avg_final (s : DemoState) : ℚ :=
  let vals := (s.results.filter (fun p => p.2.status == "complete")).map (fun p => p.2.avg_100)
  if vals = [] then 0 else round1 (vals.sum / (vals.length : ℚ))

/-- The spec's words for the derived statistic: the mean of `final_average`
across `complete` records (§3), before rounding. -/
def meanFinal (s : DemoState) : ℚ :=
  ((s.results.filter (fun p => p.2.status == "complete")).map (fun p => p.2.avg_100)).sum /
    (s.n_complete : ℚ)

-- ── Mapping lemmas ──────────────────────────────────────────────────────

theorem lookupEntry_setEntry_self (l : List (Nat × SandboxResult)) (i : Nat) (r : SandboxResult) :
    lookupEntry (setEntry l i r) i = some r := by
  induction l with
  | nil => simp [setEntry, lookupEntry]
  | cons p rest ih =>
    by_cases h : p.1 = i
    · simp [setEntry, lookupEntry, h]
    · simp [setEntry, lookupEntry, h, ih]

theorem lookupEntry_setEntry_of_ne (l : List (Nat × SandboxResult)) (i j : Nat)
    (r : SandboxResult) (h : j ≠ i) :
    lookupEntry (setEntry l i r) j = lookupEntry l j := by
  have hij : ¬ i = j := fun hc => h hc.symm
  induction l with
  | nil => simp [setEntry, lookupEntry, hij]
  | cons p rest ih =>
    by_cases hp : p.1 = i
    · have hpj : ¬ p.1 = j := by rw [hp]; exact hij
      simp [setEntry, lookupEntry, hp, hij, hpj]
    · simp [setEntry, lookupEntry, hp, ih]

theorem setEntry_eq_of_lookup (l : List (Nat × SandboxResult)) (i : Nat) (r : SandboxResult)
    (h : lookupEntry l i = some r) : setEntry l i r = l := by
  induction l with
  | nil => simp [lookupEntry] at h
  | cons p rest ih =>
    by_cases hp : p.1 = i
    · obtain ⟨p1, p2⟩ := p
      simp only at hp
      subst hp
      simp only [lookupEntry, if_pos rfl] at h
      injection h with hpr
      subst hpr
      simp [setEntry]
    · simp only [lookupEntry, if_neg hp] at h
      simp [setEntry, hp, ih h]

-- ── Store operation lemmas ──────────────────────────────────────────────

theorem update_find_ne (s : DemoState) (i : Nat) (sid : String) (d : Report) (j : Nat)
    (h : j ≠ i) : (s.update i sid d).find j = s.find j := by
  simp [DemoState.update, DemoState.find, lookupEntry_setEntry_of_ne _ _ _ _ h]

theorem mark_error_find_ne (s : DemoState) (i : Nat) (sid msg : String) (j : Nat)
    (h : j ≠ i) : (s.mark_error i sid msg).find j = s.find j := by
  simp [DemoState.mark_error, DemoState.find, lookupEntry_setEntry_of_ne _ _ _ _ h]

theorem mark_running_find_ne (s : DemoState) (i : Nat) (sid : String) (j : Nat)
    (h : j ≠ i) : (s.mark_running i sid).find j = s.find j := by
  simp [DemoState.mark_running, DemoState.find, lookupEntry_setEntry_of_ne _ _ _ _ h]

theorem update_status_self (s : DemoState) (i : Nat) (sid : String) (d : Report) :
    ∃ r, (s.update i sid d).find i = some r ∧
      (r.status = "complete" ∨ r.status = "running") := by
  by_cases h : d.status = some "complete" <;>
    simp [DemoState.update, DemoState.find, lookupEntry_setEntry_self, h]

theorem mark_error_status_self (s : DemoState) (i : Nat) (sid msg : String) :
    ((s.mark_error i sid msg).find i).map (fun r => (r.status, r.error)) =
      some ("error", msg) := by
  simp [DemoState.mark_error, DemoState.find, lookupEntry_setEntry_self]

theorem mark_running_status_self (s : DemoState) (i : Nat) (sid : String) :
    ((s.mark_running i sid).find i).map SandboxResult.status = some "running" := by
  simp [DemoState.mark_running, DemoState.find, lookupEntry_setEntry_self]

theorem update_total (s : DemoState) (i : Nat) (sid : String) (d : Report) :
    (s.update i sid d).total = s.total := rfl

theorem mark_error_total (s : DemoState) (i : Nat) (sid msg : String) :
    (s.mark_error i sid msg).total = s.total := rfl

theorem mark_running_total (s : DemoState) (i : Nat) (sid : String) :
    (s.mark_running i sid).total = s.total := rfl

theorem avg_final_eq_zero_of_none_complete (s : DemoState) (h : s.n_complete = 0) :
    s.avg_final = 0 := by
  have hf : s.results.filter (fun p => p.2.status == "complete") = [] := by
    refine List.filter_eq_nil_iff.mpr ?_
    intro a ha
    have := List.countP_eq_zero.mp h a ha
    simpa using this
  simp [DemoState.avg_final, hf]

-- ── JSON model (for `json.loads` in src/sandbox/runner.py) ──────────────

/-- JSON values as produced by `json.loads`.  Numbers are rationals (the
model for Python floats/ints throughout this development). -/
inductive Json where
  | null
  | bool (b : Bool)
  | num (q : ℚ)
  | str (s : String)
  | arr (elems : List Json)
  | obj (fields : List (String × Json))
deriving Inhabited

/-- The `\x7b` character (opening curly brace). -/
def openBrace : Char := Char.ofNat 123

/-- The `\x7d` character (closing curly brace). -/
def closeBrace : Char := Char.ofNat 125

/-- JSON whitespace (also what `str.strip` removes from the lines the
runner handles, which only ever carry ASCII whitespace). -/
def isJsonWs (c : Char) : Bool :=
  c == ' ' || c == '\t' || c == '\n' || c == '\r'

def skipWs (cs : List Char) : List Char :=
  cs.dropWhile isJsonWs

def parseHexDigit (c : Char) : Option Nat :=
  if '0' ≤ c ∧ c ≤ '9' then some (c.toNat - 48)
  else if 'a' ≤ c ∧ c ≤ 'f' then some (c.toNat - 87)
  else if 'A' ≤ c ∧ c ≤ 'F' then some (c.toNat - 55)
  else none

def escChar (c : Char) : Option Char :=
  if c = '\"' then some '\"'
  else if c = '\\' then some '\\'
  else if c = '/' then some '/'
  else if c = 'b' then some (Char.ofNat 8)
  else if c = 'f' then some (Char.ofNat 12)
  else if c = 'n' then some '\n'
  else if c = 'r' then some '\r'
  else if c = 't' then some '\t'
  else none

/-- Body of a JSON string literal (after the opening quote): collect
characters until the closing quote, decoding escapes. -/
def parseStringAux : List Char → List Char → Option (String × List Char)
  | [], _ => none
  | c :: rest, acc =>
    if c = '\"' then some (String.mk acc.reverse, rest)
    else if c = '\\' then
      match rest with
      | [] => none
      | 'u' :: a :: b :: c2 :: d :: rest2 =>
        match parseHexDigit a, parseHexDigit b, parseHexDigit c2, parseHexDigit d with
        | some ha, some hb, some hc, some hd =>
          parseStringAux rest2 (Char.ofNat (((ha * 16 + hb) * 16 + hc) * 16 + hd) :: acc)
        | _, _, _, _ => none
      | e :: rest2 =>
        match escChar e with
        | some ch => parseStringAux rest2 (ch :: acc)
        | none => none
    else parseStringAux rest (c :: acc)

def digitVal (c : Char) : Nat := c.toNat - 48

def digitsToNat (ds : List Char) : Nat :=
  ds.foldl (fun n c => n * 10 + digitVal c) 0

/-- Integer part of a JSON number: `0`, or a nonzero digit followed by
digits (JSON forbids redundant leading zeros). -/
def parseIntPart : List Char → Option (Nat × List Char)
  | [] => none
  | c :: rest =>
    if c = '0' then
      match rest with
      | d :: _ => if d.isDigit then none else some (0, rest)
      | [] => some (0, [])
    else if c.isDigit then
      let spanned := List.span Char.isDigit rest
      some (digitsToNat (c :: spanned.1), spanned.2)
    else none

/-- Optional fraction part: value of the digits and their count. -/
def parseFracPart : List Char → Option (Nat × Nat × List Char)
  | '.' :: rest =>
    let spanned := List.span Char.isDigit rest
    if spanned.1 = [] then none else some (digitsToNat spanned.1, spanned.1.length, spanned.2)
  | cs => some (0, 0, cs)

/-- Optional exponent part. -/
def parseExpPart (cs : List Char) : Option (Int × List Char) :=
  match cs with
  | c :: rest =>
    if c == 'e' || c == 'E' then
      let signed : Int × List Char :=
        match rest with
        | '+' :: r => (1, r)
        | '-' :: r => (-1, r)
        | r => (1, r)
      let spanned := List.span Char.isDigit signed.2
      if spanned.1 = [] then none else some (signed.1 * (digitsToNat spanned.1 : Int), spanned.2)
    else some (0, cs)
  | [] => some (0, [])

def parseNumber (cs : List Char) : Option (ℚ × List Char) :=
  let signed : Bool × List Char :=
    match cs with
    | '-' :: rest => (true, rest)
    | _ => (false, cs)
  match parseIntPart signed.2 with
  | none => none
  | some (ip, cs2) =>
    match parseFracPart cs2 with
    | none => none
    | some (fv, fl, cs3) =>
      match parseExpPart cs3 with
      | none => none
      | some (ex, cs4) =>
        let mag : ℚ := ((ip : ℚ) + (fv : ℚ) / ((10 : ℚ) ^ fl)) * (10 : ℚ) ^ ex
        some (if signed.1 then -mag else mag, cs4)

mutual

/-- Recursive-descent JSON value parser (fuel-indexed; the fuel used by
`json_loads` always suffices because every recursive step consumes input).
Models Python's `json.loads` grammar on the documents this system
exchanges (the model leaves out `NaN`/`Infinity`). -/
def parseValue : Nat → List Char → Option (Json × List Char)
  | 0, _ => none
  | fuel + 1, cs =>
    match skipWs cs with
    | [] => none
    | c :: rest =>
      if c = 'n' then
        match rest with
        | 'u' :: 'l' :: 'l' :: rest2 => some (Json.null, rest2)
        | _ => none
      else if c = 't' then
        match rest with
        | 'r' :: 'u' :: 'e' :: rest2 => some (Json.bool true, rest2)
        | _ => none
      else if c = 'f' then
        match rest with
        | 'a' :: 'l' :: 's' :: 'e' :: rest2 => some (Json.bool false, rest2)
        | _ => none
      else if c = '\"' then
        match parseStringAux rest [] with
        | some (s, rest2) => some (Json.str s, rest2)
        | none => none
      else if c = '[' then
        match skipWs rest with
        | ']' :: rest2 => some (Json.arr [], rest2)
        | _ =>
          match parseElems fuel rest with
          | some (xs, rest2) => some (Json.arr xs, rest2)
          | none => none
      else if c = openBrace then
        match skipWs rest with
        | d :: rest2 =>
          if d = closeBrace then some (Json.obj [], rest2)
          else
            match parseFields fuel rest with
            | some (fs, rest3) => some (Json.obj fs, rest3)
            | none => none
        | [] => none
      else
        match parseNumber (c :: rest) with
        | some (q, rest2) => some (Json.num q, rest2)
        | none => none

/-- One-or-more comma-separated array elements, up to the closing `]`. -/
def parseElems : Nat → List Char → Option (List Json × List Char)
  | 0, _ => none
  | fuel + 1, cs =>
    match parseValue fuel cs with
    | none => none
    | some (v, rest) =>
      match skipWs rest with
      | ',' :: rest2 =>
        match parseElems fuel rest2 with
        | some (vs, rest3) => some (v :: vs, rest3)
        | none => none
      | ']' :: rest2 => some ([v], rest2)
      | _ => none

/-- One-or-more `"key": value` object members, up to the closing brace. -/
def parseFields : Nat → List Char → Option (List (String × Json) × List Char)
  | 0, _ => none
  | fuel + 1, cs =>
    match skipWs cs with
    | '\"' :: rest =>
      match parseStringAux rest [] with
      | none => none
      | some (k, rest2) =>
        match skipWs rest2 with
        | ':' :: rest3 =>
          match parseValue fuel rest3 with
          | none => none
          | some (v, rest4) =>
            match skipWs rest4 with
            | ',' :: rest5 =>
              match parseFields fuel rest5 with
              | some (fs, rest6) => some ((k, v) :: fs, rest6)
              | none => none
            | d :: rest5 => if d = closeBrace then some ([(k, v)], rest5) else none
            | [] => none
        | _ => none
    | _ => none

end

/-- Models `json.loads`: parse one JSON document, requiring only trailing
whitespace after it. -/
def json_loads (s : String) : Option Json :=
  let cs := s.toList
  match parseValue (cs.length + 1) cs with
  | some (v, rest) => if skipWs rest = [] then some v else none
  | none => none

/-- A string Python's `json.loads` accepts. -/
def isValidJson (s : String) : Bool :=
  (json_loads s).isSome

/-- Models `dict` lookup on a decoded JSON object (later duplicate keys win, as
in Python's dict construction). -/
def objGet (fs : List (String × Json)) (k : String) : Option Json :=
  fs.foldl (fun acc p => if p.1 = k then some p.2 else acc) none

def asStr : Option Json → Option String
  | some (Json.str s) => some s
  | _ => none

def asNum : Option Json → Option ℚ
  | some (Json.num q) => some q
  | _ => none

def asBool : Option Json → Option Bool
  | some (Json.bool b) => some b
  | _ => none

/-- The typed view of a decoded progress-report object, reading each
recognized protocol field the way `DemoState.update` does with `get`. -/
def toReport : Json → Report
  | Json.obj fs =>
    { status := asStr (objGet fs "status")
      episode := asNum (objGet fs "episode")
      avg_100 := asNum (objGet fs "avg_100")
      final_avg := asNum (objGet fs "final_avg")
      best := asNum (objGet fs "best")
      solved := asBool (objGet fs "solved")
      solved_at := asNum (objGet fs "solved_at")
      elapsed_s := asNum (objGet fs "elapsed_s")
      lr := asNum (objGet fs "lr") }
  | _ => {}

-- ── Unit worker (src/sandbox/runner.py) ─────────────────────────────────

/-- Models `str.strip()` on the stdout lines the runner handles. -/
def pyStrip (s : String) : String :=
  String.mk (((s.toList.dropWhile Char.isWhitespace).reverse.dropWhile Char.isWhitespace).reverse)

/-- Models `line.startswith("\x7b")` for the one-character brace prefix:
true iff the first character is the opening brace. -/
def startsWithBrace (s : String) : Bool :=
  match s.toList with
  | c :: _ => c == openBrace
  | [] => false

/-- Models `str.splitlines()` for newline-delimited stdout (`""` gives no
lines; a trailing newline does not create an empty last line). -/
def splitLinesAux : List Char → List Char → List String
  | [], [] => []
  | [], acc => [String.mk acc.reverse]
  | c :: rest, acc =>
    if c = '\n' then String.mk acc.reverse :: splitLinesAux rest []
    else splitLinesAux rest (c :: acc)

def splitLines (s : String) : List String :=
  splitLinesAux s.toList []

/-- True iff the runner's line loop reaches `state.update` for this line:
the stripped line starts with the opening brace and `json.loads` succeeds
(src/sandbox/runner.py lines 44-51). -/
def lineApplied (line : String) : Bool :=
  startsWithBrace (pyStrip line) && (json_loads (pyStrip line)).isSome

/-- The body of the runner's per-line loop: strip, test the brace prefix,
`json.loads` inside `try`, apply via `state.update`; a `JSONDecodeError`
is swallowed (`pass`) and the line is discarded. -/
def processLine (s : DemoState) (index : Nat) (sid : String) (line : String) : DemoState :=
  let l := pyStrip line
  if startsWithBrace l then
    match json_loads l with
    | some j => s.update index sid (toReport j)
    | none => s
  else s

/-- The whole parse loop: `for line in (response.result or "").splitlines()`. -/
def processLines (s : DemoState) (index : Nat) (sid : String) (out : String) : DemoState :=
  (splitLines out).foldl (fun acc line => processLine acc index sid line) s

deriving instance DecidableEq for Except

/-- One unit's interaction with the external provisioning API: the outcome
of each remote step (`Except.error` models the step raising, with the
exception's message) and whether `daytona.delete` would raise.  The
`execResult` payload is the captured stdout (`response.result or ""`). -/
structure ExecApi where
  createResult : Except String String
  uploadResult : Except String Unit
  installResult : Except String Unit
  execResult : Except String String
  deleteFails : Bool
deriving Repr, DecidableEq

/-- What a `run_sandbox` call did: the store it left behind and how many
times `daytona.delete` was invoked. -/
structure RunOutcome where
  state : DemoState
  deleteCalls : Nat
deriving Repr, DecidableEq

/-- Models `f"sb-{index:05d}"`. -/
def sandboxIdFor (index : Nat) : String :=
  let s := toString index
  "sb-" ++ String.mk (List.replicate (5 - s.length) '0') ++ s

/-- The message of the first step of provision/upload/install/execute that
raises, if any — the exception `run_sandbox`'s `except` block catches. -/
def firstFailure (api : ExecApi) : Option String :=
  match api.createResult with
  | Except.error e => some e
  | Except.ok _ =>
    match api.uploadResult with
    | Except.error e => some e
    | Except.ok _ =>
      match api.installResult with
      | Except.error e => some e
      | Except.ok _ =>
        match api.execResult with
        | Except.error e => some e
        | Except.ok _ => none

/-- Embeds `run_sandbox` (src/sandbox/runner.py lines 8-61).  The
`try/except Exception/finally` structure is translated explicitly: any
step failure ends in `state.mark_error(index, sandbox_id, str(e))` with
the `sandbox_id` current at that point; the `finally` block deletes the
sandbox exactly when `daytona.create` returned one, and a delete failure
is swallowed by the inner `except Exception: pass` (both branches of the
match below continue identically).  The function is total: no exception
escapes the worker. -/
def run_sandbox (index : Nat) (state : DemoState) (api : ExecApi) : RunOutcome :=
  let sandbox_id := sandboxIdFor index
  match api.createResult with
  | Except.error e =>
    -- `daytona.create` raised: `sandbox` is still None, so `finally` does
    -- not delete anything.
    { state := state.mark_error index sandbox_id e, deleteCalls := 0 }
  | Except.ok sid =>
    let s1 := state.mark_running index sid
    let afterBody : DemoState :=
      match api.uploadResult with
      | Except.error e => s1.mark_error index sid e
      | Except.ok _ =>
        match api.installResult with
        | Except.error e => s1.mark_error index sid e
        | Except.ok _ =>
          match api.execResult with
          | Except.error e => s1.mark_error index sid e
          | Except.ok out => processLines s1 index sid out
    match (if api.deleteFails then Except.error "delete raised" else Except.ok () :
        Except String Unit) with
    | Except.error _ => { state := afterBody, deleteCalls := 1 }
    | Except.ok _ => { state := afterBody, deleteCalls := 1 }

/-- Orchestration: `main.py` submits `run_sandbox(i, state, ...)` for `i in range(n)` and
joins every future.  Each worker mutates only its own index, so the store
the joined run leaves behind equals this sequential composition. -/
def runFrom (k : Nat) (apis : List ExecApi) (s : DemoState) : DemoState :=
  match apis with
  | [] => s
  | api :: rest => runFrom (k + 1) rest (run_sandbox k s api).state

/-- A whole orchestration run over `DemoState(total=len(apis))`. -/
def runAll (apis : List ExecApi) : DemoState :=
  runFrom 0 apis (DemoState.init apis.length)

-- ── Dashboard projection (src/dashboard/builder.py) ─────────────────────

/-- Insertion sort by `index`: `sorted(state.results.values(), key=lambda r: r.index)`. -/
def insertByIndex (r : SandboxResult) : List SandboxResult → List SandboxResult
  | [] => [r]
  | x :: xs => if r.index < x.index then r :: x :: xs else x :: insertByIndex r xs

def sortByIndex (l : List SandboxResult) : List SandboxResult :=
  l.foldr insertByIndex []

/-- The store states observed by `build_dashboard`'s successive reads.
Each derived statistic is computed by its own traversal of
`state.results`, none of them under the lock (only the table copy takes
it), so in a concurrent run each traversal may observe a different store
state; this structure records the state each read sees.  `state.total` is
immutable (no operation writes it), so it is read off `sErr`, the state
observed by the traversal in the same expression. -/
structure ReadTrace where
  sDone : DemoState
  sRun : DemoState
  sErr : DemoState
  sSolved : DemoState
  sAvg : DemoState
  sTable : DemoState

/-- The presentation data `build_dashboard` derives (header counts and the
ordered table rows; the rich markup and the clock-derived `elapsed` are
outside the model). -/
structure Dash where
  n_done : Nat
  n_run : Nat
  n_err : Nat
  n_pend : Int
  n_solved : Nat
  solved_pct : ℚ
  avg_final : ℚ
  rows : List SandboxResult
deriving Repr, DecidableEq

/-- Embeds `build_dashboard` (src/dashboard/builder.py lines 10-37):
`n_done = state.n_complete`, `n_run = state.n_running`, an inline
generator recount of the error records, `n_pend = state.total - n_done -
n_run - that recount`, `solved_pct = round(state.n_solved / max(n_done, 1)
* 100, 1)`, `avg = state.avg_final`, and the row copy sorted by index
(the only read taken under `state.lock`). -/
def build_dashboard (tr : ReadTrace) : Dash :=
  let n_done := tr.sDone.n_complete
  let n_run := tr.sRun.n_running
  let n_err := tr.sErr.results.countP (fun p => p.2.status == "error")
  let n_pend : Int := (tr.sErr.total : Int) - (n_done : Int) - (n_run : Int) - (n_err : Int)
  let n_solved := tr.sSolved.n_solved
  let solved_pct := round1 ((n_solved : ℚ) / (max n_done 1 : ℚ) * 100)
  { n_done := n_done
    n_run := n_run
    n_err := n_err
    n_pend := n_pend
    n_solved := n_solved
    solved_pct := solved_pct
    avg_final := tr.sAvg.avg_final
    rows := sortByIndex (tr.sTable.results.map (fun p => p.2)) }

/-- The spec's `snapshot_and_stats()` (§4.1): the ordered-by-index copy of
all records plus every derived statistic, all computed from the one store
state `s` — a single consistent read. -/
def snapshot_and_stats (s : DemoState) : Dash :=
  { n_done := s.n_complete
    n_run := s.n_running
    n_err := s.n_error
    n_pend := (s.total : Int) - (s.n_complete : Int) - (s.n_running : Int) - (s.n_error : Int)
    n_solved := s.n_solved
    solved_pct := round1 ((s.n_solved : ℚ) / (max s.n_complete 1 : ℚ) * 100)
    avg_final := s.avg_final
    rows := sortByIndex (s.results.map (fun p => p.2)) }

-- ── Further store lemmas ────────────────────────────────────────────────

theorem update_find_self_complete (s : DemoState) (i : Nat) (sid : String) (d : Report)
    (h : d.status = some "complete") :
    (s.update i sid d).find i =
      some { ((s.find i).getD { sandbox_id := sid, index := i }) with
               sandbox_id := sid
               status := "complete"
               avg_100 := d.final_avg.getD 0
               best := d.best.getD 0
               solved := d.solved.getD false
               solved_at := d.solved_at
               elapsed_s := d.elapsed_s.getD 0
               lr := d.lr.getD (1 / 100) } := by
  simp [DemoState.update, DemoState.find, h, lookupEntry_setEntry_self]

theorem mark_running_find_self (s : DemoState) (i : Nat) (sid : String) :
    (s.mark_running i sid).find i =
      some { ((s.find i).getD { sandbox_id := sid, index := i }) with status := "running" } := by
  simp [DemoState.mark_running, DemoState.find, lookupEntry_setEntry_self]

theorem mark_error_find_self (s : DemoState) (i : Nat) (sid msg : String) :
    (s.mark_error i sid msg).find i =
      some { ((s.find i).getD { sandbox_id := sid, index := i }) with
               status := "error", error := msg } := by
  simp [DemoState.mark_error, DemoState.find, lookupEntry_setEntry_self]

theorem mark_running_idem (s : DemoState) (i : Nat) (sid : String) :
    (s.mark_running i sid).mark_running i sid = s.mark_running i sid := by
  obtain ⟨t, ht⟩ : ∃ t : DemoState, s.mark_running i sid = t := ⟨_, rfl⟩
  have hfind : t.find i =
      some { ((s.find i).getD { sandbox_id := sid, index := i }) with status := "running" } := by
    rw [← ht]; exact mark_running_find_self s i sid
  rw [ht]
  show t.mark_running i sid = t
  rw [DemoState.mark_running, hfind]
  have hset : setEntry t.results i
      { ((s.find i).getD { sandbox_id := sid, index := i }) with status := "running" } =
      t.results := setEntry_eq_of_lookup _ _ _ hfind
  simp only [Option.getD_some]
  rw [hset]

-- ── Claims ──────────────────────────────────────────────────────────────

/-- C1 (amended): the status a store operation leaves behind is determined
by the operation alone, never by the record's prior status.  `update` with
a terminal report leaves `complete`; `update` with an in-flight report
leaves `running` — even on a record that was `complete` or `error`;
`mark_running` leaves `running` and `mark_error` leaves `error`
unconditionally.  In particular, `complete` and `error` are not terminal
in the code. -/
theorem claim_C1_amended (s : DemoState) (i : Nat) (sid msg : String) (d : Report) :
    ((s.update i sid d).find i).map SandboxResult.status
      = some (if d.status = some "complete" then "complete" else "running")
    ∧ ((s.mark_running i sid).find i).map SandboxResult.status = some "running"
    ∧ ((s.mark_error i sid msg).find i).map SandboxResult.status = some "error" := by
  refine ⟨?_, ?_, ?_⟩
  · by_cases h : d.status = some "complete" <;>
      simp [DemoState.update, DemoState.find, lookupEntry_setEntry_self, h]
  · simp [DemoState.mark_running, DemoState.find, lookupEntry_setEntry_self]
  · simp [DemoState.mark_error, DemoState.find, lookupEntry_setEntry_self]

def c1Terminal : Report :=
  { status := some "complete", final_avg := some 200, best := some 500, solved := some true,
    solved_at := some 120, elapsed_s := some 12, lr := some (1 / 100) }

def c1Inflight : Report :=
  { episode := some 50, avg_100 := some 120, solved := some false }

/-- C1 (counterexample): a record made `complete` by a terminal report is
moved back to `running` by a later in-flight `update` — the claimed
terminal-state monotonicity fails on the code. -/
theorem claim_C1_counterexample :
    ((((DemoState.init 1).update 0 "sb-00000" c1Terminal).find 0).map SandboxResult.status
      = some "complete")
    ∧ (((((DemoState.init 1).update 0 "sb-00000" c1Terminal).update 0 "sb-00000"
          c1Inflight).find 0).map SandboxResult.status = some "running")
    ∧ ("running" : String) ≠ "complete" ∧ ("running" : String) ≠ "error" := by
  exact ⟨rfl, rfl, by decide, by decide⟩

/-- C5: applying a progress report whose `status` field is `"complete"`
sets the record's status to `complete`, sets `solved = true` iff the
report's `solved` field is `true`, and copies the report's `solved_at`
whenever that field is present. -/
theorem claim_C5 (s : DemoState) (i : Nat) (sid : String) (d : Report)
    (h : d.status = some "complete") :
    ∃ r, (s.update i sid d).find i = some r ∧ r.status = "complete" ∧
      (r.solved = true ↔ d.solved = some true) ∧
      (∀ v, d.solved_at = some v → r.solved_at = some v) := by
  refine ⟨_, update_find_self_complete s i sid d h, rfl, ?_, ?_⟩
  · show d.solved.getD false = true ↔ d.solved = some true
    cases hd : d.solved with
    | none => simp
    | some b => cases b <;> simp
  · intro v hv
    show d.solved_at = some v
    exact hv

def c5Report : Report :=
  { status := some "complete", final_avg := some 150, solved := some true, solved_at := some 88 }

/-- C5 (witness): the theorem applied to a concrete terminal report. -/
theorem claim_C5_witness :
    ∃ r, ((DemoState.init 1).update 0 "sb-00000" c5Report).find 0 = some r ∧
      r.status = "complete" ∧ (r.solved = true ↔ c5Report.solved = some true) ∧
      (∀ v, c5Report.solved_at = some v → r.solved_at = some v) :=
  claim_C5 (DemoState.init 1) 0 "sb-00000" c5Report rfl

/-- C8 (amended): `mark_running` creates the record if absent (with the
given `unit_id` and status `running`); on an existing record it sets only
`status := "running"` and leaves `unit_id` — and every other field —
unchanged (the source never writes `sandbox_id` on an existing record);
repeated calls with the same arguments are idempotent. -/
theorem claim_C8_amended (s : DemoState) (i : Nat) (sid : String) :
    (s.find i = none →
      (s.mark_running i sid).find i =
        some { sandbox_id := sid, index := i, status := "running" })
    ∧ (∀ r, s.find i = some r →
        (s.mark_running i sid).find i = some { r with status := "running" })
    ∧ (s.mark_running i sid).mark_running i sid = s.mark_running i sid := by
  refine ⟨?_, ?_, mark_running_idem s i sid⟩
  · intro h
    rw [mark_running_find_self, h]
    rfl
  · intro r h
    rw [mark_running_find_self, h]
    rfl

/-- C8 (counterexample): `mark_running` on an existing record does not
update its `unit_id`: after `mark_running(0, "sb-a")` then
`mark_running(0, "sb-b")`, the record still carries `"sb-a"`. -/
theorem claim_C8_counterexample :
    ((((DemoState.init 1).mark_running 0 "sb-a").mark_running 0 "sb-b").find 0).map
        SandboxResult.sandbox_id = some "sb-a"
    ∧ ("sb-a" : String) ≠ "sb-b" := by
  exact ⟨rfl, by decide⟩

/-- C8 (witness): the amended theorem applied to a concrete store — a
fresh record is created `running` with the given id, and a second
identical call changes nothing. -/
theorem claim_C8_witness :
    ((DemoState.init 1).mark_running 0 "sb-w").find 0 =
      some { sandbox_id := "sb-w", index := 0, status := "running" }
    ∧ (((DemoState.init 1).mark_running 0 "sb-w").mark_running 0 "sb-w"
        = (DemoState.init 1).mark_running 0 "sb-w") := by
  have h := claim_C8_amended (DemoState.init 1) 0 "sb-w"
  exact ⟨h.1 rfl, h.2.2⟩

/-- C9: `mark_error` on an existing record rewrites only `status` and
`error`; all other fields of that record, and the records at every other
index, are unchanged. -/
theorem claim_C9 (s : DemoState) (i : Nat) (sid msg : String) (r : SandboxResult)
    (h : s.find i = some r) :
    (s.mark_error i sid msg).find i = some { r with status := "error", error := msg }
    ∧ ∀ j, j ≠ i → (s.mark_error i sid msg).find j = s.find j := by
  constructor
  · rw [mark_error_find_self, h]
    rfl
  · exact fun j hj => mark_error_find_ne s i sid msg j hj

def c9State : DemoState :=
  ((DemoState.init 2).mark_running 0 "sb-x").mark_running 1 "sb-y"

/-- C9 (witness): the frame theorem applied to a concrete two-record
store. -/
theorem claim_C9_witness :
    (c9State.mark_error 0 "sb-x" "boom").find 0 =
      some { sandbox_id := "sb-x", index := 0, status := "error", error := "boom" }
    ∧ (c9State.mark_error 0 "sb-x" "boom").find 1 = c9State.find 1 := by
  have h := claim_C9 c9State 0 "sb-x" "boom"
    { sandbox_id := "sb-x", index := 0, status := "running" } rfl
  exact ⟨h.1, h.2 1 (by decide)⟩

/-- C10: the derived mean-final-score statistic is total: with no
`complete` record `avg_final` is `0.0` (no division is attempted), and
otherwise it is the mean of `avg_100` over the complete records, rounded
to one decimal. -/
theorem claim_C10 (s : DemoState) :
    (s.n_complete = 0 → s.avg_final = 0)
    ∧ (0 < s.n_complete → s.avg_final = round1 (meanFinal s)) := by
  constructor
  · exact avg_final_eq_zero_of_none_complete s
  · intro h
    have hlen : (s.results.filter (fun p => p.2.status == "complete")).length = s.n_complete := by
      simp [DemoState.n_complete, List.countP_eq_length_filter]
    have hne : ¬ ((s.results.filter (fun p => p.2.status == "complete")).map
        (fun p => p.2.avg_100) = []) := by
      intro hc
      have : (s.results.filter (fun p => p.2.status == "complete")) = [] :=
        List.map_eq_nil_iff.mp hc
      rw [this] at hlen
      simp at hlen
      omega
    simp [DemoState.avg_final, meanFinal, hne, List.length_map, hlen]

def c10Report : Report :=
  { status := some "complete", final_avg := some 150, solved := some true }

def c10State : DemoState := (DemoState.init 1).update 0 "sb-00000" c10Report

/-- C10 (witness): an empty store yields `0`; a store with one complete
record yields the rounded mean. -/
theorem claim_C10_witness :
    (DemoState.init 7).avg_final = 0 ∧ c10State.avg_final = round1 (meanFinal c10State) := by
  refine ⟨(claim_C10 (DemoState.init 7)).1 rfl, (claim_C10 c10State).2 ?_⟩
  show 0 < c10State.n_complete
  simp [c10State, c10Report, DemoState.update, DemoState.init, DemoState.find,
    DemoState.n_complete, lookupEntry, setEntry]

/-- C3: the per-status counts the dashboard derives always sum to the
fixed `total` the store was created with — `n_pend` is defined as `total`
minus the other three counts, so the identity holds at every point in
time, even when the separate traversals observe different interleaved
store states; and no store operation ever changes `total` from the value
given at creation. -/
theorem claim_C3 (tr : ReadTrace) (s : DemoState) (i : Nat) (sid msg : String) (d : Report) :
    ((build_dashboard tr).n_pend + ((build_dashboard tr).n_run : Int)
        + ((build_dashboard tr).n_done : Int) + ((build_dashboard tr).n_err : Int)
      = (tr.sErr.total : Int))
    ∧ (s.update i sid d).total = s.total
    ∧ (s.mark_running i sid).total = s.total
    ∧ (s.mark_error i sid msg).total = s.total
    ∧ (DemoState.init i).total = i := by
  refine ⟨?_, rfl, rfl, rfl, rfl⟩
  simp only [build_dashboard]
  ring

/-- C4 (amended): `build_dashboard` computes each derived statistic in its
own traversal of the mapping, none under the lock (only the sorted table
copy is), so the statistics of one rendered frame may come from different
interleaved store states; they agree with the spec's atomic
`snapshot_and_stats()` of a single state exactly when every traversal
observes the same state — i.e. when no write interleaves the reads. -/
theorem claim_C4_amended (s : DemoState) :
    build_dashboard { sDone := s, sRun := s, sErr := s, sSolved := s, sAvg := s, sTable := s }
      = snapshot_and_stats s := by
  simp [build_dashboard, snapshot_and_stats, DemoState.n_error]

def c4Report : Report :=
  { status := some "complete", final_avg := some 200, solved := some true }

def c4s1 : DemoState := DemoState.init 1

def c4s2 : DemoState := c4s1.update 0 "sb-00000" c4Report

/-- The read interleaving where the count traversals see the store before
a terminal `update` and the later traversals see it after. -/
def c4Trace : ReadTrace :=
  { sDone := c4s1, sRun := c4s1, sErr := c4s1, sSolved := c4s2, sAvg := c4s2, sTable := c4s2 }

/-- C4 (counterexample): with one legal `update` interleaved between the
`n_complete` traversal and the `avg_final` traversal, the dashboard shows
`0` complete units together with a mean final score of `200` — a
combination no single store state can produce, so the statistics are not
computed from one consistent read. -/
theorem claim_C4_counterexample :
    c4s2 = c4s1.update 0 "sb-00000" c4Report
    ∧ (build_dashboard c4Trace).n_done = 0
    ∧ (build_dashboard c4Trace).avg_final = 200
    ∧ ¬ ∃ s : DemoState, s.n_complete = 0 ∧ s.avg_final = 200 := by
  refine ⟨rfl, rfl, ?_, ?_⟩
  · show c4s2.avg_final = 200
    simp [c4s2, c4s1, c4Report, DemoState.update, DemoState.init, DemoState.find,
      lookupEntry, setEntry, DemoState.avg_final]
    norm_num [round1, roundHalfEven]
  · rintro ⟨s, h0, h200⟩
    rw [avg_final_eq_zero_of_none_complete s h0] at h200
    norm_num at h200

/-- C6 (amended): a stdout line reaches `state.update` iff its stripped
form starts with an opening brace and parses as JSON (i.e. iff it is one
valid JSON object document); any other line — including valid JSON that is
not an object, such as a bare number — is discarded without changing any
Result Record and without failing the unit. -/
theorem claim_C6_amended (s : DemoState) (i : Nat) (sid line : String) :
    (lineApplied line = true ↔
      (startsWithBrace (pyStrip line) = true ∧ isValidJson (pyStrip line) = true))
    ∧ (lineApplied line = false → processLine s i sid line = s) := by
  constructor
  · simp [lineApplied, isValidJson, Bool.and_eq_true, Option.isSome_iff_exists]
  · intro h
    unfold processLine
    by_cases hb : startsWithBrace (pyStrip line) = true
    · cases hj : json_loads (pyStrip line) with
      | none => simp [hb, hj]
      | some j =>
        exfalso
        simp [lineApplied, hb, hj] at h
    · simp [hb]

/-- C6 (counterexample): the line `123` is valid JSON (`json.loads`
accepts it), yet the runner discards it — the brace guard means not every
valid JSON line is applied, refuting the claimed "if and only if it is
valid JSON". -/
theorem claim_C6_counterexample :
    isValidJson "123" = true ∧ lineApplied "123" = false
    ∧ processLine (DemoState.init 1) 0 "sb-00000" "123" = DemoState.init 1 := by
  exact ⟨rfl, rfl, rfl⟩

/-- C6 (witness): a non-JSON diagnostic line is discarded and the store is
untouched. -/
theorem claim_C6_witness :
    processLine (DemoState.init 1) 0 "sb-00000" "training epoch 3" = DemoState.init 1 :=
  (claim_C6_amended (DemoState.init 1) 0 "sb-00000" "training epoch 3").2 rfl

-- ── Worker lemmas ───────────────────────────────────────────────────────

/-- The record statuses a worker can leave behind. -/
def settled (st : String) : Prop :=
  st = "running" ∨ st = "complete" ∨ st = "error"

theorem run_sandbox_eq (i : Nat) (s : DemoState) (api : ExecApi) :
    run_sandbox i s api =
      match api.createResult with
      | Except.error e => { state := s.mark_error i (sandboxIdFor i) e, deleteCalls := 0 }
      | Except.ok sid =>
        { state :=
            match api.uploadResult with
            | Except.error e => (s.mark_running i sid).mark_error i sid e
            | Except.ok _ =>
              match api.installResult with
              | Except.error e => (s.mark_running i sid).mark_error i sid e
              | Except.ok _ =>
                match api.execResult with
                | Except.error e => (s.mark_running i sid).mark_error i sid e
                | Except.ok out => processLines (s.mark_running i sid) i sid out
          deleteCalls := 1 } := by
  rcases api with ⟨cr, ur, ir, er, df⟩
  cases cr <;> cases df <;> rfl

theorem processLine_find_ne (s : DemoState) (i : Nat) (sid line : String) (j : Nat)
    (h : j ≠ i) : (processLine s i sid line).find j = s.find j := by
  unfold processLine
  by_cases hb : startsWithBrace (pyStrip line) = true
  · cases hj : json_loads (pyStrip line) with
    | none => simp [hb, hj]
    | some v => simp [hb, hj, update_find_ne _ _ _ _ _ h]
  · simp [hb]

theorem processLines_find_ne (s : DemoState) (i : Nat) (sid out : String) (j : Nat)
    (h : j ≠ i) : (processLines s i sid out).find j = s.find j := by
  unfold processLines
  generalize splitLines out = ls
  induction ls generalizing s with
  | nil => rfl
  | cons l rest ih =>
    rw [List.foldl_cons, ih (processLine s i sid l)]
    exact processLine_find_ne s i sid l j h

theorem processLine_settled (s : DemoState) (i : Nat) (sid line : String)
    (h : ∃ r, s.find i = some r ∧ settled r.status) :
    ∃ r, (processLine s i sid line).find i = some r ∧ settled r.status := by
  unfold processLine
  by_cases hb : startsWithBrace (pyStrip line) = true
  · cases hj : json_loads (pyStrip line) with
    | none => simpa [hb, hj] using h
    | some v =>
      obtain ⟨r2, hr2, hst⟩ := update_status_self s i sid (toReport v)
      refine ⟨r2, by simp [hb, hj, hr2], ?_⟩
      rcases hst with h1 | h1
      · exact Or.inr (Or.inl h1)
      · exact Or.inl h1
  · simpa [hb] using h

theorem processLines_settled (s : DemoState) (i : Nat) (sid out : String)
    (h : ∃ r, s.find i = some r ∧ settled r.status) :
    ∃ r, (processLines s i sid out).find i = some r ∧ settled r.status := by
  unfold processLines
  generalize splitLines out = ls
  induction ls generalizing s with
  | nil => exact h
  | cons l rest ih =>
    rw [List.foldl_cons]
    exact ih (processLine s i sid l) (processLine_settled s i sid l h)

theorem mark_running_settled (s : DemoState) (i : Nat) (sid : String) :
    ∃ r, (s.mark_running i sid).find i = some r ∧ settled r.status := by
  exact ⟨_, mark_running_find_self s i sid, Or.inl rfl⟩

theorem mark_error_settled (s : DemoState) (i : Nat) (sid msg : String) :
    ∃ r, (s.mark_error i sid msg).find i = some r ∧ settled r.status := by
  exact ⟨_, mark_error_find_self s i sid msg, Or.inr (Or.inr rfl)⟩

theorem run_sandbox_settled (i : Nat) (s : DemoState) (api : ExecApi) :
    ∃ r, (run_sandbox i s api).state.find i = some r ∧ settled r.status := by
  rw [run_sandbox_eq]
  rcases api with ⟨cr, ur, ir, er, df⟩
  cases cr with
  | error e => exact mark_error_settled s i (sandboxIdFor i) e
  | ok sid =>
    cases ur with
    | error e => exact mark_error_settled _ i sid e
    | ok _ =>
      cases ir with
      | error e => exact mark_error_settled _ i sid e
      | ok _ =>
        cases er with
        | error e => exact mark_error_settled _ i sid e
        | ok out => exact processLines_settled _ i sid out (mark_running_settled s i sid)

theorem run_sandbox_find_ne (i : Nat) (s : DemoState) (api : ExecApi) (j : Nat)
    (h : j ≠ i) : (run_sandbox i s api).state.find j = s.find j := by
  rw [run_sandbox_eq]
  rcases api with ⟨cr, ur, ir, er, df⟩
  cases cr with
  | error e => exact mark_error_find_ne s i _ e j h
  | ok sid =>
    cases ur with
    | error e =>
      show ((s.mark_running i sid).mark_error i sid e).find j = s.find j
      rw [mark_error_find_ne _ _ _ _ _ h, mark_running_find_ne _ _ _ _ h]
    | ok _ =>
      cases ir with
      | error e =>
        show ((s.mark_running i sid).mark_error i sid e).find j = s.find j
        rw [mark_error_find_ne _ _ _ _ _ h, mark_running_find_ne _ _ _ _ h]
      | ok _ =>
        cases er with
        | error e =>
          show ((s.mark_running i sid).mark_error i sid e).find j = s.find j
          rw [mark_error_find_ne _ _ _ _ _ h, mark_running_find_ne _ _ _ _ h]
        | ok out =>
          show (processLines (s.mark_running i sid) i sid out).find j = s.find j
          rw [processLines_find_ne _ _ _ _ _ h, mark_running_find_ne _ _ _ _ h]

/-- C7: per-unit failure containment with guaranteed teardown.  For every
behavior of the external API: `daytona.delete` is invoked exactly once iff
`daytona.create` succeeded (on every exit path, success included); the
worker's outcome does not depend on whether `delete` itself raises (the
teardown failure is swallowed); and when any of
provision/upload/install/execute raises, the failure is recorded only as
this unit's `error`-status record carrying the exception's message, with
every other index untouched — `run_sandbox` is a total function, no
exception escapes it. -/
theorem claim_C7 (i : Nat) (s : DemoState) (api : ExecApi) :
    ((run_sandbox i s api).deleteCalls =
      match api.createResult with
      | Except.ok _ => 1
      | Except.error _ => 0)
    ∧ (∀ b, run_sandbox i s { api with deleteFails := b } = run_sandbox i s api)
    ∧ (∀ e, firstFailure api = some e →
        ((run_sandbox i s api).state.find i).map (fun r => (r.status, r.error))
          = some ("error", e)
        ∧ ∀ j, j ≠ i → (run_sandbox i s api).state.find j = s.find j) := by
  refine ⟨?_, ?_, ?_⟩
  · rw [run_sandbox_eq]
    cases api.createResult <;> rfl
  · intro b
    rw [run_sandbox_eq, run_sandbox_eq]
  · intro e he
    refine ⟨?_, fun j hj => run_sandbox_find_ne i s api j hj⟩
    rw [run_sandbox_eq]
    rcases api with ⟨cr, ur, ir, er, df⟩
    cases cr with
    | error e2 =>
      simp only [firstFailure] at he
      cases he
      exact mark_error_status_self s i _ e
    | ok sid =>
      cases ur with
      | error e2 =>
        simp only [firstFailure] at he
        cases he
        exact mark_error_status_self _ i sid e
      | ok _ =>
        cases ir with
        | error e2 =>
          simp only [firstFailure] at he
          cases he
          exact mark_error_status_self _ i sid e
        | ok _ =>
          cases er with
          | error e2 =>
            simp only [firstFailure] at he
            cases he
            exact mark_error_status_self _ i sid e
          | ok out => simp [firstFailure] at he

def c7Api : ExecApi :=
  { createResult := Except.ok "sb-live-7"
    uploadResult := Except.error "upload failed: connection reset"
    installResult := Except.ok ()
    execResult := Except.ok ""
    deleteFails := true }

/-- C7 (witness): provisioning succeeded and the upload then raised — the
unit's record is `error` with the exception message, the sibling index is
untouched and `delete` ran exactly once even though it raised itself. -/
theorem claim_C7_witness :
    (run_sandbox 1 (DemoState.init 3) c7Api).deleteCalls = 1
    ∧ ((run_sandbox 1 (DemoState.init 3) c7Api).state.find 1).map (fun r => (r.status, r.error))
      = some ("error", "upload failed: connection reset")
    ∧ (run_sandbox 1 (DemoState.init 3) c7Api).state.find 0 = (DemoState.init 3).find 0 := by
  have h := claim_C7 1 (DemoState.init 3) c7Api
  exact ⟨h.1, (h.2.2 _ rfl).1, (h.2.2 _ rfl).2 0 (by decide)⟩

theorem runFrom_find_lt (apis : List ExecApi) (k : Nat) (s : DemoState) (j : Nat)
    (h : j < k) : (runFrom k apis s).find j = s.find j := by
  induction apis generalizing k s with
  | nil => rfl
  | cons api rest ih =>
    show (runFrom (k + 1) rest (run_sandbox k s api).state).find j = s.find j
    rw [ih (k + 1) _ (by omega), run_sandbox_find_ne k s api j (by omega)]

theorem runFrom_settled (apis : List ExecApi) (k : Nat) (s : DemoState) (i : Nat)
    (hk : k ≤ i) (hi : i < k + apis.length) :
    ∃ r, (runFrom k apis s).find i = some r ∧ settled r.status := by
  induction apis generalizing k s with
  | nil =>
    exfalso
    simp at hi
    omega
  | cons api rest ih =>
    show ∃ r, (runFrom (k + 1) rest (run_sandbox k s api).state).find i = some r ∧
      settled r.status
    by_cases hik : i = k
    · subst hik
      obtain ⟨r, hr, hs⟩ := run_sandbox_settled i s api
      refine ⟨r, ?_, hs⟩
      rw [runFrom_find_lt rest (i + 1) _ i (by omega)]
      exact hr
    · refine ih (k + 1) (run_sandbox k s api).state (by omega) ?_
      simp at hi
      omega

/-- C2 (amended): after the orchestrator joins all submitted workers,
every index in `[0, total)` has a Result Record (none is missing) whose
status is `running`, `complete` or `error` — no record remains `pending`.
The stronger claimed postcondition (`complete`/`error` only) does not
hold: a unit whose remote execution succeeds without emitting a terminal
report is left `running` (see the counterexample). -/
theorem claim_C2_amended (apis : List ExecApi) (i : Nat) (h : i < apis.length) :
    ∃ r, (runAll apis).find i = some r
      ∧ (r.status = "running" ∨ r.status = "complete" ∨ r.status = "error")
      ∧ r.status ≠ "pending" := by
  obtain ⟨r, hr, hs⟩ := runFrom_settled apis 0 (DemoState.init apis.length) i (by omega)
    (by omega)
  refine ⟨r, hr, hs, ?_⟩
  rcases hs with h1 | h1 | h1 <;> rw [h1] <;> decide

def c2OkApi : ExecApi :=
  { createResult := Except.ok "sb-live-2"
    uploadResult := Except.ok ()
    installResult := Except.ok ()
    execResult := Except.ok ""
    deleteFails := false }

/-- C2 (counterexample): a one-unit run in which every remote step
succeeds but the captured stdout carries no terminal report leaves the
unit's record `running` after the orchestrator has joined all workers —
refuting the claim that every record ends `complete` or `error`. -/
theorem claim_C2_counterexample :
    ((runAll [c2OkApi]).find 0).map SandboxResult.status = some "running"
    ∧ ("running" : String) ≠ "complete" ∧ ("running" : String) ≠ "error" := by
  exact ⟨rfl, by decide, by decide⟩

/-- C2 (witness): the amended theorem applied to the same concrete
one-unit run. -/
theorem claim_C2_witness :
    ∃ r, (runAll [c2OkApi]).find 0 = some r
      ∧ (r.status = "running" ∨ r.status = "complete" ∨ r.status = "error")
      ∧ r.status ≠ "pending" :=
  claim_C2_amended [c2OkApi] 0 (by decide)
